import Mathlib

/-!
Verification of the `eventstore` browse-analytics ledger
(`src/db/browselogs.js`, class `BrowseLogsService`) and of the WebSocket
command router (`src/server.js`, `WebSocketServer.handleMessage`).

The MongoDB-backed service is shallowly embedded: the `browselogs`
collection is a `List Record` in natural (insertion) order, `findOne`
is `List.find?`, `insertOne` appends, `countDocuments` is the length of
a filter, and the `$group` aggregation is grouping over the filtered
list.  JavaScript truthiness of the optional fields is modelled
explicitly (`none`, `some ""` and `some 0` are falsy).  Timestamps are
integer milliseconds; `Date.now()` is passed in as an explicit `now`
parameter.
-/

namespace EventStore

/-- JavaScript truthiness of an optional string field: `undefined`/`null`
and the empty string are falsy. -/
def truthyS : Option String → Bool
  | none => false
  | some s => s ≠ ""

/-- JavaScript truthiness of an optional numeric field: `undefined`/`null`
and `0` are falsy. -/
def truthyI : Option Int → Bool
  | none => false
  | some n => n ≠ 0

/-- `x || d` for an optional numeric field (used by the pagination
defaults `pageNum || 1` and `pageSize || 20`). -/
def orDefault : Option Nat → Nat → Nat
  | none, d => d
  | some n, d => if n = 0 then d else n

/-- A document of the `browselogs` collection.  The fields written by
`reportBrowseLog` are `user`, `anonymousId`, `targetId`, `ipAddress`,
`createdAt`, `updatedAt`; `id` stands for the Mongo `_id` assigned at
insertion.  `targetType` is carried because `readBrowseLogs` may filter
on it, but the report path never writes it (`none` = field absent). -/
structure Record where
  id : Nat
  user : Option String
  anonymousId : Option String
  targetId : String
  ipAddress : String
  createdAt : Int
  updatedAt : Int
  targetType : Option String
deriving DecidableEq

/-- The incoming browse event for `reportBrowseLog` (code 700). -/
structure BrowseEvent where
  code : Int
  user : Option String := none
  anonymousId : Option String := none
  targetId : Option String := none
  created_at : Option Int := none
  ipAddress : Option String := none
deriving DecidableEq

/-- Payload of a report result: `dup` for the 24h-duplicate no-op path
(`data: {browseId, lastBrowseTime}`), `ins` for the insert path
(`data: {browseId, browseTime}`), `none` when the JS result object
carries no `data` field. -/
inductive ReportData where
  | none : ReportData
  | dup (browseId : Nat) (lastBrowseTime : Int) : ReportData
  | ins (browseId : Nat) (browseTime : Int) : ReportData
deriving DecidableEq

/-- A `{code, message, data}` result of `reportBrowseLog`. -/
structure ReportResult where
  code : Nat
  message : String
  data : ReportData
deriving DecidableEq

/-- `this.duplicateInterval = 24 * 60 * 60 * 1000` (milliseconds). -/
def duplicateInterval : Int := 24 * 60 * 60 * 1000

/-- `new Date(browseEvent.created_at || Date.now())`: the effective client
timestamp; a missing — or zero, hence falsy — `created_at` yields `now`. -/
def effTime (now : Int) (e : BrowseEvent) : Int :=
  match e.created_at with
  | some t => if t = 0 then now else t
  | none => now

/-- The `duplicateQuery` of `reportBrowseLog`, as a predicate on stored
records: same `targetId`, `createdAt >= now - duplicateInterval`, and —
only when `browseEvent.user` is truthy — the same `user`.  (The code
never constrains `anonymousId`.) -/
def dupQueryMatch (now : Int) (e : BrowseEvent) (r : Record) : Bool :=
  (some r.targetId == e.targetId) &&
  (now - duplicateInterval ≤ r.createdAt) &&
  (if truthyS e.user then r.user == e.user else true)

/-- The `browseRecord` document built by `reportBrowseLog` before
`insertOne`; the Mongo `_id` is modelled as the length of the collection
at insertion time. -/
def newRecord (now : Int) (st : List Record) (e : BrowseEvent) : Record where
  id := st.length
  user := if truthyS e.user then e.user else none
  anonymousId := e.anonymousId
  targetId := e.targetId.getD ""
  ipAddress := if truthyS e.ipAddress then e.ipAddress.getD "" else ""
  createdAt := now
  updatedAt := now
  targetType := none

/-- `BrowseLogsService.reportBrowseLog` (code 700): validate the code,
the client timestamp (5-minute tolerance) and `targetId`; look for a
duplicate within 24 hours; insert only when no duplicate is found.
Returns the `{code, message, data}` result and the updated collection. -/
def reportBrowseLog (now : Int) (st : List Record) (e : BrowseEvent) :
    ReportResult × List Record :=
  if e.code ≠ 700 then
    ({ code := 400, message := "无效浏览记录code码，仅支持700", data := .none }, st)
  else if 5 * 60 * 1000 < (now - effTime now e).natAbs then
    ({ code := 500, message := "时间和服务器差距太大", data := .none }, st)
  else if truthyS e.targetId = false then
    ({ code := 400, message := "目标内容ID targetId不能为空", data := .none }, st)
  else
    match st.find? (dupQueryMatch now e) with
    | some r =>
        ({ code := 200, message := "24小时内已记录该内容的浏览，无需重复上报",
           data := .dup r.id r.createdAt }, st)
    | none =>
        ({ code := 200, message := "浏览记录上报成功",
           data := .ins st.length now }, st ++ [newRecord now st e])

example :
    (reportBrowseLog 1000 []
      { code := 700, targetId := some "t", anonymousId := some "a" }).1.code
      = 200 := by decide

example :
    (reportBrowseLog 1000 []
      { code := 700, targetId := some "t", anonymousId := some "a" }).2 =
      [⟨0, none, some "a", "t", "", 1000, 1000, none⟩] := by decide

example :
    (reportBrowseLog 1000 [] { code := 703, targetId := some "t" }).1.code
      = 400 := by decide

/-- The incoming query event for `readBrowseLogs` (code 703). -/
structure QueryEvent where
  code : Int
  user : Option String := none
  anonymousId : Option String := none
  userFilter : Option String := none
  targetType : Option String := none
  targetId : Option String := none
  startTime : Option Int := none
  endTime : Option Int := none
  pageNum : Option Nat := none
  pageSize : Option Nat := none
deriving DecidableEq

/-- The Mongo `query` object built by `readBrowseLogs`, as a predicate on
stored records.  Non-admin callers get the forced
`$or: [{user}, {anonymousId, user: null}]`; the admin branch applies the
optional `userFilter`/`anonymousId` filters; `targetType`, `targetId`
and the `[startTime, endTime]` range on `createdAt` apply to both. -/
def recordMatch (admin : String) (q : QueryEvent) (r : Record) : Bool :=
  (if q.user ≠ some admin then
    (r.user == q.user) || (r.anonymousId == q.anonymousId && r.user == none)
  else
    (if truthyS q.userFilter then r.user == q.userFilter else true) &&
    (if truthyS q.anonymousId then r.anonymousId == q.anonymousId else true)) &&
  (if truthyS q.targetType then r.targetType == q.targetType else true) &&
  (if truthyS q.targetId then some r.targetId == q.targetId else true) &&
  (if truthyI q.startTime && truthyI q.endTime then
    (q.startTime.getD 0 ≤ r.createdAt && r.createdAt ≤ q.endTime.getD 0)
  else true)

/-- One element of the formatted result list of `readBrowseLogs`:
`_id, user, anonymousId, targetId, createdAt, updatedAt` plus the
role-dependent `ipAddress`. -/
structure FormattedRecord where
  id : Nat
  user : Option String
  anonymousId : Option String
  targetId : String
  createdAt : Int
  updatedAt : Int
  ipAddress : String
deriving DecidableEq

/-- Formatting of one record in `readBrowseLogs`: only the admin sees the
stored `ipAddress`, everyone else gets the mask. -/
def formatRecord (isAdmin : Bool) (r : Record) : FormattedRecord where
  id := r.id
  user := r.user
  anonymousId := r.anonymousId
  targetId := r.targetId
  createdAt := r.createdAt
  updatedAt := r.updatedAt
  ipAddress := if isAdmin then r.ipAddress else "******"

/-- Insertion into a list kept in `createdAt`-descending order
(modelling `.sort({createdAt: -1})`). -/
def insertDesc (r : Record) : List Record → List Record
  | [] => [r]
  | x :: xs => if r.createdAt ≥ x.createdAt then r :: x :: xs
               else x :: insertDesc r xs

/-- Sorting by `createdAt` descending (insertion sort; only membership
and order matter to the spec, not stability). -/
def sortDesc : List Record → List Record
  | [] => []
  | x :: xs => insertDesc x (sortDesc xs)

/-- A result of `readBrowseLogs`: either the bare `{code, message}`
rejection or the full page `{list, pageNum, pageSize, total}`. -/
inductive ReadResult where
  | err (code : Nat) (message : String) : ReadResult
  | ok (list : List FormattedRecord) (pageNum pageSize total : Nat) : ReadResult
deriving DecidableEq

/-- `BrowseLogsService.readBrowseLogs` (code 703): build the
role-dependent query, sort by `createdAt` descending, paginate
(`pageNum || 1`, `pageSize || 20`), format each record (masking
`ipAddress` for non-admins) and return the page plus the total count. -/
def readBrowseLogs (admin : String) (st : List Record) (q : QueryEvent) :
    ReadResult :=
  if q.code ≠ 703 then .err 400 "无效浏览记录查询code码，仅支持703"
  else
    .ok ((((sortDesc (st.filter (recordMatch admin q))).drop
            ((orDefault q.pageNum 1 - 1) * orDefault q.pageSize 20)).take
            (orDefault q.pageSize 20)).map
          (formatRecord (q.user == some admin)))
       (orDefault q.pageNum 1) (orDefault q.pageSize 20)
       (st.filter (recordMatch admin q)).length

/-- The `targetId` of a count event: `Array.isArray` distinguishes a
single value from a batch. -/
inductive CountTarget where
  | one (s : String) : CountTarget
  | many (l : List String) : CountTarget
deriving DecidableEq

/-- The incoming count event for `countBrowseLogs` (code 704). -/
structure CountEvent where
  code : Int
  targetId : CountTarget
deriving DecidableEq

/-- A result of `countBrowseLogs`: the rejection, the single all-time
total, or the grouped `[{targetId, count}]` list. -/
inductive CountResult where
  | err (code : Nat) (message : String) : CountResult
  | okNum (code : Nat) (message : String) (counts : Nat) : CountResult
  | okList (code : Nat) (message : String) (counts : List (String × Nat)) :
      CountResult
deriving DecidableEq

/-- The aggregation pipeline of `countBrowseLogs` for a batched
`targetId`: `$match {targetId: {$in: ids}}` then `$group by targetId`
with `count: {$sum: 1}` — one `(targetId, count)` pair per distinct
`targetId` occurring among the matched documents. -/
def groupedCounts (st : List Record) (ids : List String) :
    List (String × Nat) :=
  (((st.filter (fun r => ids.contains r.targetId)).map
      (fun r => r.targetId)).dedup).map
    (fun k => (k, ((st.filter (fun r => ids.contains r.targetId)).filter
        (fun r => r.targetId == k)).length))

/-- `BrowseLogsService.countBrowseLogs` (code 704): all-time
`countDocuments {targetId}` for a single target, the grouped
aggregation for a batch. -/
def countBrowseLogs (st : List Record) (e : CountEvent) : CountResult :=
  if e.code ≠ 704 then .err 400 "无效浏览记录统计code码，仅支持704"
  else
    match e.targetId with
    | .many ids => .okList 200 "统计成功" (groupedCounts st ids)
    | .one s =>
        .okNum 200 "统计成功" ((st.filter (fun r => r.targetId == s)).length)

/-- The example ledger state of the spec's aggregate-counting property:
target `"A"` holds 5 records, `"B"` holds 0, `"C"` holds 2. -/
def sampleLedger : List Record :=
  [⟨0, some "u", some "x", "A", "", 1, 1, none⟩,
   ⟨1, some "u", some "x", "A", "", 2, 2, none⟩,
   ⟨2, none, some "y", "A", "", 3, 3, none⟩,
   ⟨3, none, some "y", "A", "", 4, 4, none⟩,
   ⟨4, some "v", some "z", "A", "", 5, 5, none⟩,
   ⟨5, some "u", some "x", "C", "", 6, 6, none⟩,
   ⟨6, none, some "y", "C", "", 7, 7, none⟩]

/-- A decoded command envelope as seen by `WebSocketServer.handleMessage`
(`message[2]`); only the fields the router inspects are modelled. -/
structure Command where
  ops : Option String := none
  code : Option Int := none
  user : Option String := none
deriving DecidableEq

/-- The domain-service methods the router can invoke. -/
inductive Handler where
  | createUser : Handler
  | createEvent : Handler
  | getUserByPubkey : Handler
  | readEvents : Handler
  | updateUser : Handler
  | deleteUser : Handler
deriving DecidableEq

/-- Outcome of one `handleMessage` dispatch: a domain-service method is
invoked, an `Error` is thrown (caught and logged by the surrounding
`try/catch`), or the command falls through the `switch` silently with no
handler and no error. -/
inductive RouteOutcome where
  | invoke (h : Handler) : RouteOutcome
  | err (msg : String) : RouteOutcome
  | silent : RouteOutcome
deriving DecidableEq

/-- `WebSocketServer.handleMessage`: reject envelopes with falsy `ops`,
`code` or `user`; then `switch` on `ops` and dispatch by code range —
`[100,200)` user operations, `[200,300)` event operations; codes 201 and
202 throw not-implemented errors; any other in-range or out-of-range
code silently selects no handler; an unknown `ops` letter throws. -/
def handleMessage (e : Command) : RouteOutcome :=
  if ¬(truthyS e.ops = true ∧ truthyI e.code = true ∧ truthyS e.user = true)
  then .err "无效的事件格式: 缺少 ops、code 或 user 字段"
  else if e.ops = some "C" then
    if 100 ≤ e.code.getD 0 ∧ e.code.getD 0 < 200 then
      if e.code.getD 0 = 100 then .invoke .createUser else .silent
    else if 200 ≤ e.code.getD 0 ∧ e.code.getD 0 < 300 then
      if e.code.getD 0 = 200 then .invoke .createEvent else .silent
    else .silent
  else if e.ops = some "R" then
    if 100 ≤ e.code.getD 0 ∧ e.code.getD 0 < 200 then
      if e.code.getD 0 = 103 then .invoke .getUserByPubkey else .silent
    else if 200 ≤ e.code.getD 0 ∧ e.code.getD 0 < 300 then
      if e.code.getD 0 = 203 then .invoke .readEvents else .silent
    else .silent
  else if e.ops = some "U" then
    if 100 ≤ e.code.getD 0 ∧ e.code.getD 0 < 200 then
      if e.code.getD 0 = 101 then .invoke .updateUser else .silent
    else if 200 ≤ e.code.getD 0 ∧ e.code.getD 0 < 300 then
      if e.code.getD 0 = 201 then .err "更新事件信息的功能暂未实现" else .silent
    else .silent
  else if e.ops = some "D" then
    if 100 ≤ e.code.getD 0 ∧ e.code.getD 0 < 200 then
      if e.code.getD 0 = 102 then .invoke .deleteUser else .silent
    else if 200 ≤ e.code.getD 0 ∧ e.code.getD 0 < 300 then
      if e.code.getD 0 = 202 then .err "删除事件的功能暂未实现" else .silent
    else .silent
  else .err ("未知的 ops 类型: " ++ e.ops.getD "")

/-- The `(ops, code)` pairs for which `handleMessage` has a registered
domain handler, read off the `switch` statement. -/
def registeredHandler (ops : Option String) (c : Int) : Option Handler :=
  if ops = some "C" then
    if c = 100 then some .createUser
    else if c = 200 then some .createEvent else none
  else if ops = some "R" then
    if c = 103 then some .getUserByPubkey
    else if c = 203 then some .readEvents else none
  else if ops = some "U" then
    if c = 101 then some .updateUser else none
  else if ops = some "D" then
    if c = 102 then some .deleteUser else none
  else none

example :
    handleMessage { ops := some "C", code := some 100, user := some "u" }
      = .invoke .createUser := by decide

example :
    handleMessage { ops := some "C", code := some 700, user := some "u" }
      = .silent := by decide

example :
    handleMessage { ops := some "X", code := some 100, user := some "u" }
      = .err "未知的 ops 类型: X" := by decide

example :
    readBrowseLogs "adm" [⟨0, some "u1", some "a", "t", "1.2.3.4", 5, 5, none⟩]
      { code := 703, user := some "u1", anonymousId := some "a" }
      = .ok [⟨0, some "u1", some "a", "t", 5, 5, "******"⟩] 1 20 1 := by decide

example :
    countBrowseLogs [⟨0, none, some "a", "t", "", 5, 5, none⟩,
        ⟨1, none, some "a", "t", "", 6, 6, none⟩,
        ⟨2, none, some "a", "s", "", 7, 7, none⟩]
      { code := 704, targetId := .many ["t", "s", "zz"] }
      = .okList 200 "统计成功" [("t", 2), ("s", 1)] := by decide

/-- C1: the code's duplicate query for an anonymous report (absent
`user`) constrains only `targetId` and `createdAt`, never `anonymousId`:
a report with `anonymousId = "B"` for target `"t"` finds the recent
record of anonymousId `"A"` (whose identity is null) as a duplicate and
inserts nothing, contradicting the claim that only records with the
command's own `anonymousId` and null identity count as duplicates. -/
theorem reportBrowseLog_anonymous_dedup_ignores_anonymousId :
    reportBrowseLog 1000 [⟨0, none, some "A", "t", "", 0, 0, none⟩]
      { code := 700, user := none, anonymousId := some "B",
        targetId := some "t" }
      = (⟨200, "24小时内已记录该内容的浏览，无需重复上报", .dup 0 0⟩,
         [⟨0, none, some "A", "t", "", 0, 0, none⟩]) := by decide

/-- C2: `handleMessage` never dispatches browse-ledger codes: envelopes
with codes 700 (report), 703 (read) and 704 (count) — under any of the
`ops` letters the `switch` handles — fall through with no handler
invoked and no error, although the repository's `BrowseLogsService`
implements exactly these codes. -/
theorem handleMessage_browse_codes_never_dispatched :
    handleMessage { ops := some "C", code := some 700, user := some "u" }
        = .silent ∧
    handleMessage { ops := some "R", code := some 703, user := some "u" }
        = .silent ∧
    handleMessage { ops := some "R", code := some 704, user := some "u" }
        = .silent ∧
    handleMessage { ops := some "U", code := some 700, user := some "u" }
        = .silent ∧
    handleMessage { ops := some "D", code := some 700, user := some "u" }
        = .silent := by decide

/-- C9: the report path performs no check on `anonymousId`: a valid
anonymous report that omits `anonymousId` is accepted and persists a
record whose `user` and `anonymousId` are both null, violating the
invariant that identity-less records carry a non-null `anonymousId`. -/
theorem reportBrowseLog_persists_null_anonymousId :
    reportBrowseLog 500 [] { code := 700, targetId := some "t" }
      = (⟨200, "浏览记录上报成功", .ins 0 500⟩,
         [{ id := 0, user := none, anonymousId := none, targetId := "t",
            ipAddress := "", createdAt := 500, updatedAt := 500,
            targetType := none }]) := by decide

/-- C5 (counterexample): a report whose supplied `created_at` is `0` is
falsy in `browseEvent.created_at || Date.now()`, so the clock-skew check
compares `now` with itself: at server time `10^9` ms the claim's
effective timestamp (`0`) differs from server time by far more than 5
minutes, yet the command is accepted with code 200 (and persisted)
instead of rejected with 500. -/
theorem reportBrowseLog_created_at_zero_accepted :
    (reportBrowseLog 1000000000 []
      { code := 700, anonymousId := some "a", targetId := some "t",
        created_at := some 0 }).1.code = 200 ∧
    (reportBrowseLog 1000000000 []
      { code := 700, anonymousId := some "a", targetId := some "t",
        created_at := some 0 }).2.length = 1 ∧
    5 * 60 * 1000 < ((1000000000 : Int) - 0).natAbs := by decide

/-- C5 (amended): `reportBrowseLog` validates in order — a code other
than 700 yields 400; otherwise an effective timestamp (`created_at` when
supplied and nonzero, else `now`) more than 5 minutes away from server
time yields 500; otherwise a missing/empty `targetId` yields 400 — each
failure leaving the collection unchanged; when all validations pass both
the duplicate no-op path and the insert path return code 200. -/
theorem reportBrowseLog_validation_order (now : Int) (st : List Record)
    (e : BrowseEvent) :
    (e.code ≠ 700 →
      reportBrowseLog now st e
        = (⟨400, "无效浏览记录code码，仅支持700", .none⟩, st)) ∧
    (e.code = 700 → 5 * 60 * 1000 < (now - effTime now e).natAbs →
      reportBrowseLog now st e
        = (⟨500, "时间和服务器差距太大", .none⟩, st)) ∧
    (e.code = 700 → (now - effTime now e).natAbs ≤ 5 * 60 * 1000 →
      truthyS e.targetId = false →
      reportBrowseLog now st e
        = (⟨400, "目标内容ID targetId不能为空", .none⟩, st)) ∧
    (e.code = 700 → (now - effTime now e).natAbs ≤ 5 * 60 * 1000 →
      truthyS e.targetId = true →
      (reportBrowseLog now st e).1.code = 200) := by
  refine ⟨?_, ?_, ?_, ?_⟩
  · intro h
    unfold reportBrowseLog
    rw [if_pos h]
  · intro h ht
    unfold reportBrowseLog
    rw [if_neg (by simp [h]), if_pos ht]
  · intro h ht htg
    unfold reportBrowseLog
    rw [if_neg (by simp [h]), if_neg (by omega), if_pos htg]
  · intro h ht htg
    unfold reportBrowseLog
    rw [if_neg (by simp [h]), if_neg (by omega),
        if_neg (by simp [htg])]
    cases st.find? (dupQueryMatch now e) <;> rfl

/-- C5 (witness): the validation theorem applied at concrete inputs: a
code-701 command is rejected with 400 and does not change the ledger. -/
theorem reportBrowseLog_validation_order_witness :
    ((701 : Int) ≠ 700) ∧
    reportBrowseLog 0 [] { code := 701, targetId := some "t" }
      = (⟨400, "无效浏览记录code码，仅支持700", .none⟩, []) :=
  ⟨by decide,
   (reportBrowseLog_validation_order 0 [] { code := 701, targetId := some "t" }).1
     (by decide)⟩

/-- `find?` skips a prefix on which it finds nothing. -/
lemma find?_append_none {α : Type} (p : α → Bool) (l₁ l₂ : List α)
    (h : l₁.find? p = none) : (l₁ ++ l₂).find? p = l₂.find? p := by
  induction l₁ with
  | nil => rfl
  | cons x xs ih =>
    have hx : ¬ p x = true := by
      simpa using List.find?_eq_none.mp h x (by simp)
    have hxs : xs.find? p = none := by
      rw [List.find?_eq_none] at h ⊢
      intro a ha
      exact h a (by simp [ha])
    simpa [List.find?_cons_of_neg _ hx] using ih hxs

/-- The duplicate window only shrinks as `now` advances: a record inside
the window of a later `now` is inside the window of any earlier one. -/
lemma dupQueryMatch_mono {t1 t2 : Int} (e : BrowseEvent) (r : Record)
    (h12 : t1 ≤ t2) (h : dupQueryMatch t2 e r = true) :
    dupQueryMatch t1 e r = true := by
  unfold dupQueryMatch at h ⊢
  simp only [Bool.and_eq_true] at h ⊢
  obtain ⟨⟨h1, h2⟩, h3⟩ := h
  refine ⟨⟨h1, ?_⟩, h3⟩
  simp only [decide_eq_true_eq] at h2 ⊢
  omega

/-- The record just inserted for an event matches that event's own
duplicate query at a later time `t2` exactly when it is still inside the
24-hour window. -/
lemma dupQueryMatch_newRecord (t1 t2 : Int) (st : List Record)
    (e : BrowseEvent) (hT : truthyS e.targetId = true) :
    dupQueryMatch t2 e (newRecord t1 st e)
      = decide (t2 - duplicateInterval ≤ t1) := by
  unfold dupQueryMatch newRecord
  cases he : e.targetId with
  | none => rw [he] at hT; simp [truthyS] at hT
  | some t =>
    by_cases hu : truthyS e.user = true <;> simp [he, hu]

/-- C3: idempotent reporting.  From a state with no duplicate for the
valid event `e` at time `t1`, the first call inserts a record with id
`st.length` and timestamp `t1`; a second call at `t2` inside the 24-hour
window inserts nothing, leaves the collection — including the first
record's `createdAt` — unchanged, and returns 200 with the first
record's id and original timestamp; a second call after the window has
elapsed inserts a second, independent record. -/
theorem reportBrowseLog_idempotent (t1 t2 : Int) (st : List Record)
    (e : BrowseEvent)
    (h700 : e.code = 700)
    (hT : truthyS e.targetId = true)
    (hTime1 : (t1 - effTime t1 e).natAbs ≤ 5 * 60 * 1000)
    (hTime2 : (t2 - effTime t2 e).natAbs ≤ 5 * 60 * 1000)
    (hNoDup : st.find? (dupQueryMatch t1 e) = none)
    (h12 : t1 ≤ t2) :
    reportBrowseLog t1 st e
      = (⟨200, "浏览记录上报成功", .ins st.length t1⟩,
         st ++ [newRecord t1 st e]) ∧
    (t2 - t1 ≤ duplicateInterval →
      reportBrowseLog t2 (st ++ [newRecord t1 st e]) e
        = (⟨200, "24小时内已记录该内容的浏览，无需重复上报",
            .dup st.length t1⟩, st ++ [newRecord t1 st e])) ∧
    (duplicateInterval < t2 - t1 →
      reportBrowseLog t2 (st ++ [newRecord t1 st e]) e
        = (⟨200, "浏览记录上报成功", .ins (st.length + 1) t2⟩,
           st ++ [newRecord t1 st e]
              ++ [newRecord t2 (st ++ [newRecord t1 st e]) e])) := by
  have hNone2 : st.find? (dupQueryMatch t2 e) = none := by
    rw [List.find?_eq_none] at hNoDup ⊢
    intro x hx hpx
    exact hNoDup x hx (dupQueryMatch_mono e x h12 hpx)
  refine ⟨?_, ?_, ?_⟩
  · unfold reportBrowseLog
    rw [if_neg (by simp [h700]), if_neg (by omega), if_neg (by simp [hT]),
        hNoDup]
  · intro hW
    unfold reportBrowseLog
    rw [if_neg (by simp [h700]), if_neg (by omega), if_neg (by simp [hT]),
        find?_append_none _ _ _ hNone2]
    have hfound : [newRecord t1 st e].find? (dupQueryMatch t2 e)
        = some (newRecord t1 st e) := by
      apply List.find?_cons_of_pos
      rw [dupQueryMatch_newRecord t1 t2 st e hT]
      exact decide_eq_true (by omega)
    rw [hfound]
    rfl
  · intro hW
    unfold reportBrowseLog
    rw [if_neg (by simp [h700]), if_neg (by omega), if_neg (by simp [hT]),
        find?_append_none _ _ _ hNone2]
    have hnot : [newRecord t1 st e].find? (dupQueryMatch t2 e) = none := by
      rw [List.find?_cons_of_neg, List.find?_nil]
      rw [dupQueryMatch_newRecord t1 t2 st e hT]
      simp
      omega
    rw [hnot]
    simp [newRecord]

/-- C3 (witness): the idempotence theorem at a concrete anonymous event:
the repeat report 1000 ms after the first is answered with the first
record's id 0 and timestamp 0, and the collection still holds exactly
the one record. -/
theorem reportBrowseLog_idempotent_witness :
    (([] : List Record).find? (dupQueryMatch 0
        { code := 700, targetId := some "t", anonymousId := some "a" })
      = none) ∧
    ((1000 : Int) - 0 ≤ duplicateInterval) ∧
    reportBrowseLog 1000
        ([] ++ [newRecord 0 []
          { code := 700, targetId := some "t", anonymousId := some "a" }])
        { code := 700, targetId := some "t", anonymousId := some "a" }
      = (⟨200, "24小时内已记录该内容的浏览，无需重复上报", .dup 0 0⟩,
         [] ++ [newRecord 0 []
          { code := 700, targetId := some "t", anonymousId := some "a" }]) :=
  ⟨by decide, by decide,
   (reportBrowseLog_idempotent 0 1000 []
      { code := 700, targetId := some "t", anonymousId := some "a" }
      (by decide) (by decide) (by decide) (by decide) (by decide)
      (by decide)).2.1 (by decide)⟩

/-- C6 (counterexample): the envelope `{ops: "C", code: 150, user: "u"}`
has all required fields but no registered handler for `(ops, code)`;
`handleMessage` neither raises an error nor invokes a handler — the
command is dropped silently, contradicting the claimed `InvalidCommand`
failure. -/
theorem handleMessage_unregistered_code_silent :
    handleMessage { ops := some "C", code := some 150, user := some "u" }
      = .silent := by decide

/-- C6 (amended): an envelope with a falsy `ops`, `code` or `user` fails
with the invalid-format error and reaches no domain handler; a handler
is only ever invoked when `(ops, code)` is in the router's registered
table; and an envelope whose `ops` letter is none of C/R/U/D fails with
the unknown-ops error.  (A well-formed envelope with a recognized `ops`
but unregistered code is dropped silently, or — for codes 201/202 —
fails with a not-implemented error; it never reaches a handler.) -/
theorem handleMessage_dispatch_table (e : Command) :
    (¬(truthyS e.ops = true ∧ truthyI e.code = true ∧ truthyS e.user = true) →
      handleMessage e = .err "无效的事件格式: 缺少 ops、code 或 user 字段") ∧
    (∀ h, handleMessage e = .invoke h →
      registeredHandler e.ops (e.code.getD 0) = some h) ∧
    ((truthyS e.ops = true ∧ truthyI e.code = true ∧ truthyS e.user = true) →
      e.ops ≠ some "C" → e.ops ≠ some "R" → e.ops ≠ some "U" →
      e.ops ≠ some "D" →
      handleMessage e = .err ("未知的 ops 类型: " ++ e.ops.getD "")) := by
  refine ⟨?_, ?_, ?_⟩
  · intro h
    unfold handleMessage
    rw [if_pos h]
  · intro h hinv
    unfold handleMessage at hinv
    unfold registeredHandler
    split_ifs at hinv <;> simp_all
  · intro h h1 h2 h3 h4
    unfold handleMessage
    rw [if_neg (not_not_intro h), if_neg h1, if_neg h2, if_neg h3, if_neg h4]

/-- C6 (witness): the dispatch theorem applied at a concrete envelope
missing its `user` field: the router fails with the invalid-format
error. -/
theorem handleMessage_dispatch_table_witness :
    (¬(truthyS (some "C") = true ∧ truthyI (some 100) = true ∧
        truthyS (none : Option String) = true)) ∧
    handleMessage { ops := some "C", code := some 100, user := none }
      = .err "无效的事件格式: 缺少 ops、code 或 user 字段" :=
  ⟨by decide,
   (handleMessage_dispatch_table
      { ops := some "C", code := some 100, user := none }).1 (by decide)⟩

/-- Membership in the insertion step of the `createdAt`-descending
sort. -/
lemma mem_insertDesc (r a : Record) (l : List Record) :
    a ∈ insertDesc r l ↔ a = r ∨ a ∈ l := by
  induction l with
  | nil => simp [insertDesc]
  | cons x xs ih =>
    unfold insertDesc
    split_ifs with h
    · simp
    · rw [List.mem_cons, ih, List.mem_cons]
      tauto

/-- Sorting by `createdAt` descending preserves membership. -/
lemma mem_sortDesc (a : Record) (l : List Record) :
    a ∈ sortDesc l ↔ a ∈ l := by
  induction l with
  | nil => simp [sortDesc]
  | cons x xs ih =>
    unfold sortDesc
    rw [mem_insertDesc, ih, List.mem_cons]

/-- Every formatted record of a successful `readBrowseLogs` page comes
from a stored record matched by the executed query. -/
lemma readBrowseLogs_mem (admin : String) (st : List Record)
    (q : QueryEvent) (l : List FormattedRecord) (pn ps tot : Nat)
    (h : readBrowseLogs admin st q = .ok l pn ps tot)
    (fr : FormattedRecord) (hfr : fr ∈ l) :
    ∃ r, r ∈ st ∧ recordMatch admin q r = true ∧
      fr = formatRecord (q.user == some admin) r := by
  unfold readBrowseLogs at h
  by_cases hc : q.code ≠ 703
  case pos =>
    rw [if_pos hc] at h
    exact absurd h (by simp)
  case neg =>
    rw [if_neg hc] at h
    injection h with h1 h2 h3 h4
    subst h1
    obtain ⟨r, hr, rfl⟩ := List.mem_map.mp hfr
    have hr2 : r ∈ sortDesc (st.filter (recordMatch admin q)) :=
      List.drop_subset _ _ (List.take_subset _ _ hr)
    have hr3 : r ∈ st.filter (recordMatch admin q) :=
      (mem_sortDesc _ _).mp hr2
    obtain ⟨hmem, hmatch⟩ := List.mem_filter.mp hr3
    exact ⟨r, hmem, hmatch, rfl⟩

/-- C4: visibility isolation of `readBrowseLogs`.  For a non-admin
caller the executed query forces every matched — hence every returned —
record to be owned by the caller's identity or to be an identity-null
record with the caller's `anonymousId`, whatever `userFilter` was
supplied; an admin caller with a truthy `userFilter` gets only records
owned by that identity. -/
theorem readBrowseLogs_visibility (admin : String) (st : List Record)
    (q : QueryEvent) :
    (q.user ≠ some admin →
      (∀ r ∈ st, recordMatch admin q r = true →
        r.user = q.user ∨ (r.anonymousId = q.anonymousId ∧ r.user = none)) ∧
      (∀ l pn ps tot, readBrowseLogs admin st q = .ok l pn ps tot →
        ∀ fr ∈ l, fr.user = q.user ∨
          (fr.anonymousId = q.anonymousId ∧ fr.user = none))) ∧
    (q.user = some admin → ∀ v, q.userFilter = some v → v ≠ "" →
      ∀ l pn ps tot, readBrowseLogs admin st q = .ok l pn ps tot →
        ∀ fr ∈ l, fr.user = some v) := by
  have owner : q.user ≠ some admin → ∀ r : Record,
      recordMatch admin q r = true →
      r.user = q.user ∨ (r.anonymousId = q.anonymousId ∧ r.user = none) := by
    intro hna r hm
    unfold recordMatch at hm
    rw [if_pos hna] at hm
    simp only [Bool.and_eq_true, Bool.or_eq_true, beq_iff_eq] at hm
    rcases hm.1.1.1 with h | h
    · exact Or.inl h
    · exact Or.inr ⟨h.1, h.2⟩
  refine ⟨fun hna => ⟨fun r _ hm => owner hna r hm, ?_⟩, ?_⟩
  · intro l pn ps tot h fr hfr
    obtain ⟨r, _, hm, rfl⟩ :=
      readBrowseLogs_mem admin st q l pn ps tot h fr hfr
    exact owner hna r hm
  · intro ha v hv hvne l pn ps tot h fr hfr
    obtain ⟨r, _, hm, rfl⟩ :=
      readBrowseLogs_mem admin st q l pn ps tot h fr hfr
    unfold recordMatch at hm
    rw [if_neg (by simp [ha])] at hm
    simp only [Bool.and_eq_true, beq_iff_eq] at hm
    have hfilter := hm.1.1.1.1
    rw [if_pos (by simp [truthyS, hv, hvne])] at hfilter
    have : r.user = q.userFilter := by simpa using hfilter
    show (formatRecord (q.user == some admin) r).user = some v
    rw [show (formatRecord (q.user == some admin) r).user = r.user from rfl,
        this, hv]

/-- C4 (witness): the visibility theorem at a concrete state: a
non-admin read by `"u1"` over a ledger holding a record of `"u1"` and a
record of `"u2"` returns only records owned by `"u1"` (here the matched
record is `"u1"`'s own). -/
theorem readBrowseLogs_visibility_witness :
    ((some "u1" : Option String) ≠ some "adm") ∧
    (∀ l pn ps tot,
      readBrowseLogs "adm"
        [⟨0, some "u1", some "a", "t", "", 5, 5, none⟩,
         ⟨1, some "u2", some "b", "t", "", 6, 6, none⟩]
        { code := 703, user := some "u1", anonymousId := some "a" }
        = .ok l pn ps tot →
      ∀ fr ∈ l, fr.user = (some "u1" : Option String) ∨
        (fr.anonymousId = some "a" ∧ fr.user = none)) :=
  ⟨by decide,
   ((readBrowseLogs_visibility "adm"
      [⟨0, some "u1", some "a", "t", "", 5, 5, none⟩,
       ⟨1, some "u2", some "b", "t", "", 6, 6, none⟩]
      { code := 703, user := some "u1", anonymousId := some "a" }).1
      (by decide)).2⟩

/-- C7: IP masking.  Every record on a returned page carries the masked
placeholder `"******"` as `ipAddress` when the caller is not the
administrator, and the stored record's own `ipAddress` when the caller
is the administrator. -/
theorem readBrowseLogs_ipAddress_masked (admin : String) (st : List Record)
    (q : QueryEvent) (l : List FormattedRecord) (pn ps tot : Nat)
    (h : readBrowseLogs admin st q = .ok l pn ps tot) (fr : FormattedRecord)
    (hfr : fr ∈ l) :
    (q.user ≠ some admin → fr.ipAddress = "******") ∧
    (q.user = some admin →
      ∃ r, r ∈ st ∧ r.id = fr.id ∧ fr.ipAddress = r.ipAddress) := by
  obtain ⟨r, hrst, hm, rfl⟩ :=
    readBrowseLogs_mem admin st q l pn ps tot h fr hfr
  constructor
  · intro hna
    have hb : (q.user == some admin) = false := by
      simpa using hna
    show (formatRecord (q.user == some admin) r).ipAddress = "******"
    rw [hb]
    rfl
  · intro ha
    have hb : (q.user == some admin) = true := by
      simpa using ha
    refine ⟨r, hrst, rfl, ?_⟩
    show (formatRecord (q.user == some admin) r).ipAddress = r.ipAddress
    rw [hb]
    rfl

/-- C7 (witness): the masking theorem at a concrete state: the
non-admin page entry shows `"******"` in place of the stored
`"1.2.3.4"`. -/
theorem readBrowseLogs_ipAddress_masked_witness :
    readBrowseLogs "adm" [⟨0, some "u1", some "a", "t", "1.2.3.4", 5, 5, none⟩]
        { code := 703, user := some "u1", anonymousId := some "a" }
      = .ok [⟨0, some "u1", some "a", "t", 5, 5, "******"⟩] 1 20 1 ∧
    ((some "u1" : Option String) ≠ some "adm") ∧
    (⟨0, some "u1", some "a", "t", 5, 5, "******"⟩ :
        FormattedRecord).ipAddress = "******" :=
  ⟨by decide, by decide,
   (readBrowseLogs_ipAddress_masked "adm"
      [⟨0, some "u1", some "a", "t", "1.2.3.4", 5, 5, none⟩]
      { code := 703, user := some "u1", anonymousId := some "a" }
      [⟨0, some "u1", some "a", "t", 5, 5, "******"⟩] 1 20 1 (by decide)
      ⟨0, some "u1", some "a", "t", 5, 5, "******"⟩ (by decide)).1
     (by decide)⟩

/-- Filtering a target-id restriction after the `$in` match is the same
as filtering the whole collection, provided the id was requested. -/
lemma count_filter_eq (st : List Record) (ids : List String) (k : String)
    (hk : k ∈ ids) :
    (st.filter (fun r => ids.contains r.targetId)).filter
        (fun r => r.targetId == k)
      = st.filter (fun r => r.targetId == k) := by
  rw [List.filter_filter]
  apply List.filter_congr
  intro a _
  by_cases hx : a.targetId = k
  · simp [hx, hk]
  · simp [hx]

/-- Membership in the grouped aggregation result: a pair `(k, n)` occurs
exactly for the requested ids `k` holding at least one record, with `n`
their full count. -/
lemma groupedCounts_mem (st : List Record) (ids : List String)
    (k : String) (n : Nat) :
    (k, n) ∈ groupedCounts st ids ↔
      (k ∈ ids ∧ n = (st.filter (fun r => r.targetId == k)).length ∧
        0 < n) := by
  constructor
  · intro hkn
    unfold groupedCounts at hkn
    obtain ⟨k', hk', heq⟩ := List.mem_map.mp hkn
    rw [Prod.mk.injEq] at heq
    obtain ⟨heq1, heq2⟩ := heq
    subst heq1
    subst heq2
    have hk2 := List.mem_dedup.mp hk'
    obtain ⟨r, hrm, hrk⟩ := List.mem_map.mp hk2
    obtain ⟨hrst, hrc⟩ := List.mem_filter.mp hrm
    have hkids : k' ∈ ids := by
      rw [← hrk]
      simpa using hrc
    refine ⟨hkids, ?_, ?_⟩
    · rw [count_filter_eq st ids k' hkids]
    · exact List.length_pos_of_mem
        (List.mem_filter.mpr ⟨hrm, by simp [hrk]⟩)
  · rintro ⟨hkids, rfl, hpos⟩
    obtain ⟨r, hrf⟩ :=
      List.exists_mem_of_ne_nil _ (List.length_pos.mp hpos)
    obtain ⟨hrst, hrb⟩ := List.mem_filter.mp hrf
    have hrk : r.targetId = k := by simpa using hrb
    have hrm : r ∈ st.filter (fun r => ids.contains r.targetId) :=
      List.mem_filter.mpr ⟨hrst, by rw [hrk]; simpa using hkids⟩
    have hkdedup : k ∈ ((st.filter
        (fun r => ids.contains r.targetId)).map
          (fun r => r.targetId)).dedup :=
      List.mem_dedup.mpr (List.mem_map.mpr ⟨r, hrm, hrk⟩)
    have hmem : (k, ((st.filter (fun r => ids.contains r.targetId)).filter
        (fun r => r.targetId == k)).length) ∈ groupedCounts st ids :=
      List.mem_map_of_mem _ hkdedup
    rwa [count_filter_eq st ids k hkids] at hmem

/-- C8: counting.  A single `targetId` yields the all-time count of its
records (no time filter); a batched `targetId` yields one `(id, count)`
pair exactly for each requested id holding at least one record — ids
with zero matches are omitted; on the example ledger with targets
holding 5, 0 and 2 records the batched result is `[("A",5), ("C",2)]`
(no entry for `"B"`) and the single count of `"A"` is 5. -/
theorem countBrowseLogs_counts (st : List Record) (ids : List String)
    (s : String) (k : String) (n : Nat) :
    countBrowseLogs st { code := 704, targetId := .one s }
      = .okNum 200 "统计成功"
          ((st.filter (fun r => r.targetId == s)).length) ∧
    countBrowseLogs st { code := 704, targetId := .many ids }
      = .okList 200 "统计成功" (groupedCounts st ids) ∧
    ((k, n) ∈ groupedCounts st ids ↔
      (k ∈ ids ∧ n = (st.filter (fun r => r.targetId == k)).length ∧
        0 < n)) ∧
    countBrowseLogs sampleLedger
        { code := 704, targetId := .many ["A", "B", "C"] }
      = .okList 200 "统计成功" [("A", 5), ("C", 2)] ∧
    countBrowseLogs sampleLedger { code := 704, targetId := .one "A" }
      = .okNum 200 "统计成功" 5 :=
  ⟨rfl, rfl, groupedCounts_mem st ids k n, by decide, by decide⟩

/-- C8 (witness): the grouped-count characterization applied on the
example ledger: target `"A"` is requested and holds 5 records, so
`("A", 5)` is in the batched result. -/
theorem countBrowseLogs_counts_witness :
    ("A" ∈ ["A", "B", "C"] ∧
      5 = (sampleLedger.filter (fun r => r.targetId == "A")).length ∧
      0 < 5) ∧
    ("A", 5) ∈ groupedCounts sampleLedger ["A", "B", "C"] :=
  ⟨by decide,
   (countBrowseLogs_counts sampleLedger ["A", "B", "C"] "A" "A" 5).2.2.1.mpr
     (by decide)⟩

/-- C10: a record inserted by the report path carries exactly the built
fields — in particular its `targetType` is absent (`none`) — while a
read with a truthy `targetType` filter only ever returns records whose
stored `targetType` equals that filter and hence is not `none`; so no
record created through the report operation is returned by such a
read. -/
theorem reportBrowseLog_no_targetType (now : Int) (st : List Record)
    (e : BrowseEvent) (admin : String) (st2 : List Record) (q : QueryEvent)
    (h700 : e.code = 700)
    (hTime : (now - effTime now e).natAbs ≤ 5 * 60 * 1000)
    (hT : truthyS e.targetId = true)
    (hNoDup : st.find? (dupQueryMatch now e) = none)
    (hTT : truthyS q.targetType = true) :
    (reportBrowseLog now st e).2 = st ++ [newRecord now st e] ∧
    (newRecord now st e).targetType = none ∧
    (∀ l pn ps tot, readBrowseLogs admin st2 q = .ok l pn ps tot →
      ∀ fr ∈ l, ∃ r, r ∈ st2 ∧ fr = formatRecord (q.user == some admin) r ∧
        r.targetType = q.targetType ∧ r.targetType ≠ none) := by
  refine ⟨?_, rfl, ?_⟩
  · unfold reportBrowseLog
    rw [if_neg (by simp [h700]), if_neg (by omega), if_neg (by simp [hT]),
        hNoDup]
  · intro l pn ps tot h fr hfr
    obtain ⟨r, hrst, hm, rfl⟩ :=
      readBrowseLogs_mem admin st2 q l pn ps tot h fr hfr
    unfold recordMatch at hm
    simp only [Bool.and_eq_true] at hm
    have htype := hm.1.1.2
    rw [if_pos hTT] at htype
    have hrt : r.targetType = q.targetType := by simpa using htype
    refine ⟨r, hrst, rfl, hrt, ?_⟩
    rw [hrt]
    cases hq : q.targetType with
    | none => rw [hq] at hTT; simp [truthyS] at hTT
    | some v => simp

/-- C10 (witness): the record-shape theorem at a concrete event: the
freshly inserted record has no `targetType`. -/
theorem reportBrowseLog_no_targetType_witness :
    (truthyS (some "news") = true) ∧
    (reportBrowseLog 0 []
        { code := 700, targetId := some "t", anonymousId := some "a" }).2
      = [] ++ [newRecord 0 []
          { code := 700, targetId := some "t", anonymousId := some "a" }] ∧
    (newRecord 0 []
        { code := 700, targetId := some "t",
          anonymousId := some "a" }).targetType = none :=
  ⟨by decide,
   (reportBrowseLog_no_targetType 0 []
      { code := 700, targetId := some "t", anonymousId := some "a" }
      "adm" [] { code := 703, targetType := some "news" }
      (by decide) (by decide) (by decide) (by decide) (by decide)).1,
   (reportBrowseLog_no_targetType 0 []
      { code := 700, targetId := some "t", anonymousId := some "a" }
      "adm" [] { code := 703, targetType := some "news" }
      (by decide) (by decide) (by decide) (by decide) (by decide)).2.1⟩

end EventStore
